import Mathlib

/-!
Shallow embedding of the voice-dataset-collector pipeline (src/app.py).

The program is sequential glue: persist audio (uploaded file or raw PCM
recording), transcribe it via an external model, append a (audio, text)
row to a CSV ledger, and push the audio tree plus the ledger to a remote
dataset repository.  External collaborators (the whisper model, the
huggingface API, the filesystem) are modelled as explicit parameters,
return values, or event traces; the glue code itself is embedded
faithfully, including Python truthiness on the transcription result.

Bytes are modelled as `Nat` (each < 256 where it matters), file contents
as `List Nat`, and Python strings as `String`.
-/

/-! ## Audio persister: `save_uploaded_file` (src/app.py:48-54) -/

/-- Python `str.split(sep)` for a one-character separator, over the
string's character list.  `"a.b".split(".") = ["a","b"]`,
`"".split(".") = [""]`, `"a.".split(".") = ["a",""]`; the result is
never empty. -/
def splitChars (sep : Char) : List Char → List (List Char)
  | [] => [[]]
  | c :: rest =>
    match splitChars sep rest with
    | [] => [[c]]
    | g :: gs => if c = sep then [] :: g :: gs else (c :: g) :: gs

/-- Python `str.lower()`: lower-case each character (basic latin range,
which is all that extensions like `MP3` use). -/
def pyLower (s : String) : String :=
  ⟨s.data.map Char.toLower⟩

/-- `uploaded_file.name.split(".")[-1].lower()` from src/app.py:49.
Python `str.split(".")` never returns an empty list, so `[-1]` is the
last component; `getLastD` is exact. -/
def extOf (name : String) : String :=
  pyLower ⟨(splitChars '.' name.data).getLastD []⟩

/-- Result of persisting one sample: the triple returned by the save
helpers in src/app.py plus the bytes written to disk. -/
structure SaveResult where
  savePath : String
  filename : String
  sourceType : String
  contents : List Nat
deriving DecidableEq, Repr

/-- `save_uploaded_file` (src/app.py:48-54): build `{uuid}.{ext}` with the
lower-cased extension taken from after the last dot of the upload's name,
and write the uploaded bytes verbatim under `audio/uploaded/`.
`u` stands for the fresh `uuid.uuid4()` string rendered at line 50. -/
def save_uploaded_file (baseDir u name : String) (fileBytes : List Nat) : SaveResult :=
  let ext := extOf name
  let filename := u ++ "." ++ ext
  { savePath := baseDir ++ "/audio/uploaded/" ++ filename
    filename := filename
    sourceType := "uploaded"
    contents := fileBytes }

/-! ## Audio persister: `save_recorded_audio` (src/app.py:56-61)

`np.frombuffer(audio_bytes, np.int16)` reinterprets the byte string as
16-bit signed little-endian samples and raises `ValueError` when the
length is not a multiple of the 2-byte item size; this is the `none`
case below.  `scipy.io.wavfile.write(path, 44100, arr)` writes a WAV
container holding the sample rate and the samples' int16 bytes. -/

/-- Decode two little-endian bytes as one two's-complement int16 sample. -/
def int16OfBytes (b0 b1 : Nat) : Int :=
  let n := b0 + 256 * b1
  if n < 32768 then (n : Int) else (n : Int) - 65536

/-- Encode one int16 sample as its two little-endian two's-complement
bytes (the in-memory representation `np.int16` values are written from). -/
def int16ToBytes (s : Int) : List Nat :=
  let n := (s % 65536).toNat
  [n % 256, n / 256]

/-- `np.frombuffer(audio_bytes, np.int16)`: reinterpret a byte string as
int16 samples; `none` models the `ValueError` on odd length. -/
def bytesToInt16 : List Nat → Option (List Int)
  | [] => some []
  | [_] => none
  | b0 :: b1 :: rest => (bytesToInt16 rest).map (int16OfBytes b0 b1 :: ·)

/-- A WAV container as written by `scipy.io.wavfile.write`: the header
records the sample rate, the data chunk holds the samples' bytes. -/
structure WavFile where
  sampleRate : Nat
  dataBytes : List Nat
deriving DecidableEq, Repr

/-- `scipy.io.wavfile.write(save_path, rate, arr)`: serialize int16
samples into a WAV container at the given rate. -/
def wavWrite (rate : Nat) (samples : List Int) : WavFile :=
  { sampleRate := rate, dataBytes := (samples.map int16ToBytes).flatten }

/-- Decoding a persisted WAV file back into (rate, samples), as a WAV
reader would; fails only on a malformed data chunk. -/
def wavRead (w : WavFile) : Option (Nat × List Int) :=
  (bytesToInt16 w.dataBytes).map (fun samples => (w.sampleRate, samples))

/-- Result of `save_recorded_audio`: the returned triple plus the WAV
file written to disk. -/
structure RecordedSave where
  savePath : String
  filename : String
  sourceType : String
  wav : WavFile
deriving DecidableEq, Repr

/-- `save_recorded_audio` (src/app.py:56-61): name the file `{uuid}.wav`,
reinterpret the recording bytes as int16 samples, and write them as a
WAV file at 44100 Hz under `audio/recorded/`.  `none` models the
`ValueError` from `np.frombuffer` on an odd-length byte string, in which
case no WAV file contents are produced. -/
def save_recorded_audio (baseDir u : String) (audioBytes : List Nat) : Option RecordedSave :=
  (bytesToInt16 audioBytes).map fun samples =>
    let filename := u ++ ".wav"
    { savePath := baseDir ++ "/audio/recorded/" ++ filename
      filename := filename
      sourceType := "recorded"
      wav := wavWrite 44100 samples }

/-! ## Transcription adapter: `transcribe_audio` (src/app.py:63-69)

The external model call `model.transcribe(audio_path)` either returns a
result whose `"text"` field is a string, or raises; this outcome is the
`Except String String` parameter (`.error e` carries the exception
message).  The adapter catches any exception, shows it via `st.error`,
and returns `None` — it never re-raises, which the embedding reflects by
being a total function into `Option String`. -/

def transcribe_audio (modelOutcome : Except String String) : Option String :=
  match modelOutcome with
  | .ok text => some text
  | .error _ => none

/-- Python truthiness of the transcription result, as tested by
`if transcription:` in the record/upload tabs (src/app.py:143, 173):
`None` and the empty string are falsy, every other string is truthy. -/
def pythonTruthy (transcription : Option String) : Bool :=
  match transcription with
  | none => false
  | some t => !(t == "")

/-! ## Metadata ledger: `save_metadata` (src/app.py:71-82)

The on-disk ledger is modelled as `Option (List MetadataRow)`: `none`
when `data/metadata.csv` does not exist, `some rows` when it exists and
holds those rows.  `pd.read_csv` / `df.to_csv(index=False)` are
modelled as a content-faithful round trip of the rows (the spec's
"unchanged in content, not necessarily in formatting"). -/

/-- One row of the metadata DataFrame: exactly the two named columns
built at src/app.py:72-75. -/
structure MetadataRow where
  audio : String
  text : String
deriving DecidableEq, Repr

/-- The one-row DataFrame built at src/app.py:72-75. -/
def newRow (audio_type audio_filename transcription : String) : MetadataRow :=
  { audio := "audio/" ++ audio_type ++ "/" ++ audio_filename
    text := transcription }

/-- `save_metadata` (src/app.py:71-82): if the ledger file exists, read
it, concatenate the new row at the end, and overwrite; otherwise the new
row becomes the whole ledger.  Returns the rows written back to disk. -/
def save_metadata (ledger : Option (List MetadataRow))
    (audio_type audio_filename transcription : String) : List MetadataRow :=
  match ledger with
  | some df => df ++ [newRow audio_type audio_filename transcription]
  | none => [newRow audio_type audio_filename transcription]

/-- Serialization of one row by `df.to_csv(..., index=False)`: the two
column values, no leading index column. -/
def rowToCsv (r : MetadataRow) : String :=
  r.audio ++ "," ++ r.text

/-- Serialization of the whole ledger by `df.to_csv(..., index=False)`:
the header names exactly the two columns `audio,text` (no index
column), then one line per row in order. -/
def ledgerToCsv (rows : List MetadataRow) : String :=
  "audio,text" ++ (rows.map (fun r => "\n" ++ rowToCsv r)).foldl (· ++ ·) ""

/-! ## Publisher: `push_to_huggingface` (src/app.py:86-110)

The remote side is modelled as `Option RemoteRepo` (absent / existing
repository) for the `create_repo(..., exist_ok=True)` step, and the
three network calls are recorded as an event trace in order. -/

/-- The remote repository's state relevant to `create_repo`. -/
structure RemoteRepo where
  repoId : String
  repoType : String
deriving DecidableEq, Repr

/-- `create_repo(repo_id=HF_REPO_ID, repo_type="dataset", exist_ok=True,
token=HF_TOKEN)` (src/app.py:88): create the repository as a
"dataset"-kind repository when absent, leave it unchanged otherwise. -/
def create_repo_existOk (repoId : String) (remote : Option RemoteRepo) : Option RemoteRepo :=
  match remote with
  | none => some { repoId := repoId, repoType := "dataset" }
  | some r => some r

/-- One observable pipeline action. -/
inductive Event where
  | errorShown (msg : String)
  | ledgerAppend (row : MetadataRow)
  | createRepo (repoId repoType : String)
  | uploadFolder (folderPath repoId repoType : String)
  | uploadFile (localPath remotePath repoId repoType : String)
deriving DecidableEq, Repr

/-- `push_to_huggingface` (src/app.py:86-110): ensure the fixed-id
repository exists (dataset kind, `exist_ok=True`), then upload the whole
local `audio` folder, then upload the ledger file to remote path
`metadata.csv` — in that order. -/
def push_to_huggingface (baseDir repoId : String) : List Event :=
  [Event.createRepo repoId "dataset",
   Event.uploadFolder (baseDir ++ "/audio") repoId "dataset",
   Event.uploadFile (baseDir ++ "/data/metadata.csv") "metadata.csv" repoId "dataset"]

/-! ## Orchestration (record tab src/app.py:140-151, upload tab 170-181)

After persisting, both tabs run the same tail:
```
transcription = transcribe_audio(audio_path)
if transcription:
    save_metadata(audio_type, filename, transcription)
    push_to_huggingface()
```
The submission outcome records the resulting ledger state, whether
`save_metadata` ran, how many times `push_to_huggingface` was invoked,
and the event trace. -/

structure SubmissionResult where
  ledger : Option (List MetadataRow)
  appended : Bool
  publishCalls : Nat
  events : List Event
deriving DecidableEq, Repr

/-- The shared transcribe-append-publish tail of one submission
(src/app.py:140-151 and 170-181), for an already-persisted sample of
type `audio_type` stored as `filename`, given the model call's
outcome. -/
def runSubmission (baseDir repoId : String) (ledger : Option (List MetadataRow))
    (audio_type filename : String) (modelOutcome : Except String String) :
    SubmissionResult :=
  let transcription := transcribe_audio modelOutcome
  let errEvents : List Event :=
    match modelOutcome with
    | .error e => [Event.errorShown ("Transcription failed: " ++ e)]
    | .ok _ => []
  if pythonTruthy transcription then
    let t := transcription.getD ""
    let rows := save_metadata ledger audio_type filename t
    { ledger := some rows
      appended := true
      publishCalls := 1
      events := errEvents ++ [Event.ledgerAppend (newRow audio_type filename t)]
        ++ push_to_huggingface baseDir repoId }
  else
    { ledger := ledger
      appended := false
      publishCalls := 0
      events := errEvents }

/-- Number of rows in the on-disk ledger (0 when the file is absent). -/
def rowCount (ledger : Option (List MetadataRow)) : Nat :=
  (ledger.getD []).length

/-! ## Helper lemmas -/

/-- Encoding an in-range int16 sample to two little-endian bytes and
decoding them back is the identity. -/
lemma int16_roundtrip (s : Int) (h1 : -32768 ≤ s) (h2 : s ≤ 32767) :
    int16OfBytes ((s % 65536).toNat % 256) ((s % 65536).toNat / 256) = s := by
  simp only [int16OfBytes]
  split <;> omega

/-- Decoding the concatenated byte encodings of in-range samples
recovers exactly those samples. -/
lemma bytesToInt16_flatten (samples : List Int)
    (h : ∀ s ∈ samples, -32768 ≤ s ∧ s ≤ 32767) :
    bytesToInt16 ((samples.map int16ToBytes).flatten) = some samples := by
  induction samples with
  | nil => rfl
  | cons s rest ih =>
    have hs := h s (List.mem_cons_self s rest)
    have hrest : ∀ x ∈ rest, -32768 ≤ x ∧ x ≤ 32767 :=
      fun x hx => h x (List.mem_cons_of_mem s hx)
    have e0 : (List.map int16ToBytes (s :: rest)).flatten
        = ((s % 65536).toNat % 256) :: ((s % 65536).toNat / 256)
          :: (rest.map int16ToBytes).flatten := rfl
    have e1 : bytesToInt16 (((s % 65536).toNat % 256) :: ((s % 65536).toNat / 256)
          :: (rest.map int16ToBytes).flatten)
        = (bytesToInt16 ((rest.map int16ToBytes).flatten)).map
            (int16OfBytes ((s % 65536).toNat % 256) ((s % 65536).toNat / 256) :: ·) := rfl
    rw [e0, e1, ih hrest]
    simp only [Option.map_some']
    rw [int16_roundtrip s hs.1 hs.2]

/-- The int16 reinterpretation succeeds exactly on even-length byte
strings. -/
lemma bytesToInt16_isSome : ∀ bs : List Nat,
    (bytesToInt16 bs).isSome ↔ bs.length % 2 = 0
  | [] => by simp [bytesToInt16]
  | [b] => by simp [bytesToInt16]
  | b0 :: b1 :: rest => by
    have ih := bytesToInt16_isSome rest
    simp only [bytesToInt16, Option.isSome_map', List.length_cons]
    rw [ih]
    omega

/-- Two equal strings of the shape `d ++ u ++ "." ++ e` with
equal-length middles have equal middles. -/
lemma append_mid_inj (d u1 u2 e1 e2 : String) (hlen : u1.length = u2.length)
    (h : d ++ (u1 ++ "." ++ e1) = d ++ (u2 ++ "." ++ e2)) : u1 = u2 := by
  have hd : d.data ++ (u1.data ++ (".".data ++ e1.data))
      = d.data ++ (u2.data ++ (".".data ++ e2.data)) := by
    have := congrArg String.data h
    simpa [String.data_append, List.append_assoc] using this
  have h1 : u1.data ++ (".".data ++ e1.data) = u2.data ++ (".".data ++ e2.data) :=
    List.append_cancel_left hd
  have hlen' : u1.data.length = u2.data.length := hlen
  have h2 : u1.data = u2.data := (List.append_inj h1 hlen').1
  exact String.ext h2

/-- The canonical string rendering of `uuid.uuid4()` (src/app.py:50, 57)
is 8-4-4-4-12 hexadecimal digits separated by four hyphens: always 36
characters long. -/
def isUuidString (s : String) : Prop :=
  s.length = 36

instance (s : String) : Decidable (isUuidString s) :=
  inferInstanceAs (Decidable (s.length = 36))

/-! ## Claim theorems -/

/-- C5: for every sequence of in-range 16-bit PCM samples given as
recording bytes, `save_recorded_audio` writes a `.wav` file at 44100 Hz
whose decoding yields the same sample sequence and the same rate. -/
theorem recorded_wav_roundtrip (baseDir u : String) (samples : List Int)
    (h : ∀ s ∈ samples, -32768 ≤ s ∧ s ≤ 32767) :
    save_recorded_audio baseDir u ((samples.map int16ToBytes).flatten)
      = some { savePath := baseDir ++ "/audio/recorded/" ++ (u ++ ".wav")
               filename := u ++ ".wav"
               sourceType := "recorded"
               wav := wavWrite 44100 samples }
    ∧ (wavWrite 44100 samples).sampleRate = 44100
    ∧ wavRead (wavWrite 44100 samples) = some (44100, samples) := by
  have hb := bytesToInt16_flatten samples h
  refine ⟨?_, rfl, ?_⟩
  · simp only [save_recorded_audio, hb, Option.map_some']
  · simp only [wavRead, wavWrite, hb, Option.map_some']

/-- Witness for C5 at the spec's synthetic sample sequence
`[0, 1000, -1000, 32767, -32768]`. -/
theorem recorded_wav_roundtrip_witness :
    (∀ s ∈ ([0, 1000, -1000, 32767, -32768] : List Int), -32768 ≤ s ∧ s ≤ 32767)
    ∧ (save_recorded_audio "/app" "id"
        ((([0, 1000, -1000, 32767, -32768] : List Int).map int16ToBytes).flatten)
        = some { savePath := "/app" ++ "/audio/recorded/" ++ ("id" ++ ".wav")
                 filename := "id" ++ ".wav"
                 sourceType := "recorded"
                 wav := wavWrite 44100 [0, 1000, -1000, 32767, -32768] }
      ∧ (wavWrite 44100 ([0, 1000, -1000, 32767, -32768] : List Int)).sampleRate = 44100
      ∧ wavRead (wavWrite 44100 ([0, 1000, -1000, 32767, -32768] : List Int))
          = some (44100, [0, 1000, -1000, 32767, -32768])) :=
  ⟨by decide, recorded_wav_roundtrip "/app" "id" [0, 1000, -1000, 32767, -32768] (by decide)⟩

/-- C9: persisting a recording is defined exactly on even-length byte
strings: the int16 reinterpretation (and hence the whole save, which
produces the WAV contents) succeeds iff the recording byte string's
length is a multiple of the 2-byte sample width. -/
theorem recorded_defined_iff_even_length (baseDir u : String) (audioBytes : List Nat) :
    ((bytesToInt16 audioBytes).isSome ↔ audioBytes.length % 2 = 0)
    ∧ ((save_recorded_audio baseDir u audioBytes).isSome ↔ audioBytes.length % 2 = 0) := by
  refine ⟨bytesToInt16_isSome audioBytes, ?_⟩
  rw [save_recorded_audio, Option.isSome_map']
  exact bytesToInt16_isSome audioBytes

/-- C6: the persisted filename of an upload is the fresh identifier
followed by a dot and the lower-cased extension taken from after the
last dot of the upload's name, and the persisted bytes are byte-identical
to the input; in particular a file named `clip.MP3` persists as
`{uuid}.mp3`. -/
theorem uploaded_extension_fidelity (baseDir u name : String) (fileBytes : List Nat) :
    (save_uploaded_file baseDir u name fileBytes).contents = fileBytes
    ∧ (∃ stem, (save_uploaded_file baseDir u name fileBytes).filename
        = stem ++ "." ++ extOf name)
    ∧ extOf "clip.MP3" = "mp3"
    ∧ (save_uploaded_file baseDir u "clip.MP3" fileBytes).filename = u ++ ".mp3" := by
  refine ⟨rfl, ⟨u, rfl⟩, by decide, ?_⟩
  show u ++ "." ++ extOf "clip.MP3" = u ++ ".mp3"
  rw [show extOf "clip.MP3" = "mp3" from by decide, String.append_assoc]
  rfl

/-- C10: the storage path of an upload depends on the upload's name only
through the lower-cased last-dot extension: two uploads with the same
bytes and the same extension but different base names produce identical
save results (path, filename, contents) for the same generated
identifier, and the path is exactly the source-type directory plus
identifier plus extension. -/
theorem uploaded_path_ignores_basename (baseDir u n1 n2 : String) (fileBytes : List Nat)
    (hext : extOf n1 = extOf n2) :
    save_uploaded_file baseDir u n1 fileBytes = save_uploaded_file baseDir u n2 fileBytes
    ∧ (save_uploaded_file baseDir u n1 fileBytes).savePath
        = baseDir ++ "/audio/uploaded/" ++ (u ++ "." ++ extOf n1) := by
  unfold save_uploaded_file
  rw [hext]
  exact ⟨rfl, rfl⟩

/-- Witness for C10: `clip.MP3` and `voice.mp3` share the extension
`mp3`, so their save results agree. -/
theorem uploaded_path_ignores_basename_witness :
    extOf "clip.MP3" = extOf "voice.mp3"
    ∧ (save_uploaded_file "/app" "id" "clip.MP3" [1, 2, 3]
        = save_uploaded_file "/app" "id" "voice.mp3" [1, 2, 3]
      ∧ (save_uploaded_file "/app" "id" "clip.MP3" [1, 2, 3]).savePath
          = "/app" ++ "/audio/uploaded/" ++ ("id" ++ "." ++ extOf "clip.MP3")) :=
  ⟨by decide, uploaded_path_ignores_basename "/app" "id" "clip.MP3" "voice.mp3" [1, 2, 3]
    (by decide)⟩

/-- C8: two persist operations of the same source type whose generated
identifiers differ produce different storage paths — for uploads
(whatever the two uploads' names) and for recordings alike.  The
identifiers are `uuid.uuid4()` renderings, so they have equal (36
character) length. -/
theorem storage_paths_unique (baseDir u1 u2 : String)
    (h1 : isUuidString u1) (h2 : isUuidString u2) (hne : u1 ≠ u2) :
    (∀ n1 n2 b1 b2,
      (save_uploaded_file baseDir u1 n1 b1).savePath
        ≠ (save_uploaded_file baseDir u2 n2 b2).savePath)
    ∧ (∀ b1 b2 r1 r2, save_recorded_audio baseDir u1 b1 = some r1 →
        save_recorded_audio baseDir u2 b2 = some r2 →
        r1.savePath ≠ r2.savePath) := by
  have hlen : u1.length = u2.length := by rw [h1, h2]
  constructor
  · intro n1 n2 b1 b2 hpath
    exact hne (append_mid_inj (baseDir ++ "/audio/uploaded/") u1 u2 _ _ hlen
      (by simpa [save_uploaded_file, String.append_assoc] using hpath))
  · intro b1 b2 r1 r2 hr1 hr2 hpath
    rcases Option.map_eq_some'.mp hr1 with ⟨s1, _, hs1⟩
    rcases Option.map_eq_some'.mp hr2 with ⟨s2, _, hs2⟩
    have hp1 : r1.savePath = baseDir ++ "/audio/recorded/" ++ (u1 ++ ".wav") := by
      rw [← hs1]
    have hp2 : r2.savePath = baseDir ++ "/audio/recorded/" ++ (u2 ++ ".wav") := by
      rw [← hs2]
    rw [hp1, hp2] at hpath
    refine hne (append_mid_inj (baseDir ++ "/audio/recorded/") u1 u2 "wav" "wav" hlen ?_)
    have hw : (u1 : String) ++ ".wav" = u1 ++ "." ++ "wav" := by
      rw [String.append_assoc]; rfl
    have hw2 : (u2 : String) ++ ".wav" = u2 ++ "." ++ "wav" := by
      rw [String.append_assoc]; rfl
    rw [hw] at hpath
    rw [hw2] at hpath
    exact hpath

/-- Witness for C8 at two concrete distinct `uuid4` renderings. -/
theorem storage_paths_unique_witness :
    isUuidString "123e4567-e89b-42d3-a456-426614174000"
    ∧ isUuidString "9b2e7d80-1f4c-4a61-8c3b-5d2f0e9a7b11"
    ∧ "123e4567-e89b-42d3-a456-426614174000" ≠ "9b2e7d80-1f4c-4a61-8c3b-5d2f0e9a7b11"
    ∧ ((∀ n1 n2 b1 b2,
        (save_uploaded_file "/app" "123e4567-e89b-42d3-a456-426614174000" n1 b1).savePath
          ≠ (save_uploaded_file "/app" "9b2e7d80-1f4c-4a61-8c3b-5d2f0e9a7b11" n2 b2).savePath)
      ∧ (∀ b1 b2 r1 r2,
          save_recorded_audio "/app" "123e4567-e89b-42d3-a456-426614174000" b1 = some r1 →
          save_recorded_audio "/app" "9b2e7d80-1f4c-4a61-8c3b-5d2f0e9a7b11" b2 = some r2 →
          r1.savePath ≠ r2.savePath)) :=
  ⟨by decide, by decide, by decide,
    storage_paths_unique "/app" "123e4567-e89b-42d3-a456-426614174000"
      "9b2e7d80-1f4c-4a61-8c3b-5d2f0e9a7b11" (by decide) (by decide) (by decide)⟩

/-- C2: appending to an existing N-row ledger yields N+1 rows whose
first N rows are the old rows unchanged and whose new row is last;
appending when no ledger file exists makes the new row the entire
one-row ledger. -/
theorem ledger_append_preserves_rows (rows : List MetadataRow)
    (audio_type audio_filename transcription : String) :
    (save_metadata (some rows) audio_type audio_filename transcription).length
        = rows.length + 1
    ∧ (save_metadata (some rows) audio_type audio_filename transcription).take rows.length
        = rows
    ∧ (save_metadata (some rows) audio_type audio_filename transcription).getLast?
        = some (newRow audio_type audio_filename transcription)
    ∧ save_metadata none audio_type audio_filename transcription
        = [newRow audio_type audio_filename transcription] := by
  refine ⟨?_, ?_, ?_, rfl⟩
  · simp [save_metadata]
  · simp [save_metadata]
  · simp [save_metadata]

/-- C4: every append writes the ledger with exactly the two named
columns `audio,text` (header first, no internal row-index column in a
serialized row), and the appended row's `audio` field is
`audio/{audioType}/{filename}`. -/
theorem ledger_schema_and_audio_field (ledger : Option (List MetadataRow))
    (audio_type audio_filename transcription : String) :
    (save_metadata ledger audio_type audio_filename transcription).getLast?
        = some { audio := "audio/" ++ audio_type ++ "/" ++ audio_filename
                 text := transcription }
    ∧ (∃ rest, ledgerToCsv (save_metadata ledger audio_type audio_filename transcription)
        = "audio,text" ++ rest)
    ∧ (∀ r : MetadataRow, rowToCsv r = r.audio ++ "," ++ r.text) := by
  refine ⟨?_, ⟨_, rfl⟩, fun r => rfl⟩
  cases ledger with
  | none => rfl
  | some rows => simp [save_metadata, newRow]

/-- C1: when the model call raises, `transcribe_audio` catches the
exception and returns the no-transcription result `none` (it does not
re-raise), and the submission short-circuits: the ledger (hence its row
count) is unchanged, no row is appended, and publish is never
invoked. -/
theorem transcription_failure_short_circuits (baseDir repoId audio_type filename e : String)
    (ledger : Option (List MetadataRow)) (outcome : Except String String)
    (h : outcome = .error e) :
    transcribe_audio outcome = none
    ∧ (runSubmission baseDir repoId ledger audio_type filename outcome).ledger = ledger
    ∧ rowCount (runSubmission baseDir repoId ledger audio_type filename outcome).ledger
        = rowCount ledger
    ∧ (runSubmission baseDir repoId ledger audio_type filename outcome).appended = false
    ∧ (runSubmission baseDir repoId ledger audio_type filename outcome).publishCalls = 0 := by
  subst h
  exact ⟨rfl, rfl, rfl, rfl, rfl⟩

/-- Witness for C1 at a concrete failing submission. -/
theorem transcription_failure_short_circuits_witness :
    ((Except.error "boom" : Except String String) = Except.error "boom")
    ∧ (transcribe_audio (Except.error "boom") = none
      ∧ (runSubmission "/app" "user/repo" (some []) "uploaded" "f.mp3"
          (Except.error "boom")).ledger = some []
      ∧ rowCount (runSubmission "/app" "user/repo" (some []) "uploaded" "f.mp3"
          (Except.error "boom")).ledger = rowCount (some [])
      ∧ (runSubmission "/app" "user/repo" (some []) "uploaded" "f.mp3"
          (Except.error "boom")).appended = false
      ∧ (runSubmission "/app" "user/repo" (some []) "uploaded" "f.mp3"
          (Except.error "boom")).publishCalls = 0) :=
  ⟨rfl, transcription_failure_short_circuits "/app" "user/repo" "uploaded" "f.mp3" "boom"
    (some []) (Except.error "boom") rfl⟩

/-- C3 counterexample: a transcription that succeeds with the empty
string (`transcribe_audio` returns `some ""`) nevertheless writes no
metadata row — `if transcription:` in src/app.py:143/173 treats the
empty string as falsy — so a row is not written exactly when
transcription succeeded. -/
theorem empty_transcript_writes_no_row :
    transcribe_audio (Except.ok "") = some ""
    ∧ (runSubmission "/app" "user/repo" (some []) "uploaded" "f.mp3"
        (Except.ok "")).appended = false
    ∧ (runSubmission "/app" "user/repo" (some []) "uploaded" "f.mp3"
        (Except.ok "")).ledger = some [] := by
  refine ⟨rfl, ?_, ?_⟩ <;> rfl

/-- C3 amended: a metadata row is written exactly when the transcription
call succeeded with a non-empty (truthy) transcript; the written row's
text field is the returned transcript, hence never null and never
empty. -/
theorem row_written_iff_truthy_transcript (baseDir repoId audio_type filename : String)
    (ledger : Option (List MetadataRow)) (outcome : Except String String) :
    ((runSubmission baseDir repoId ledger audio_type filename outcome).appended = true
      ↔ ∃ t, outcome = Except.ok t ∧ t ≠ "")
    ∧ (∀ t, outcome = Except.ok t → t ≠ "" →
        (runSubmission baseDir repoId ledger audio_type filename outcome).ledger
          = some (save_metadata ledger audio_type filename t)
        ∧ ((runSubmission baseDir repoId ledger audio_type filename outcome).ledger.getD
            []).getLast? = some (newRow audio_type filename t)) := by
  have key : ∀ t : String, t ≠ "" → pythonTruthy (some t) = true := by
    intro t ht
    simp [pythonTruthy, ht]
  constructor
  · constructor
    · intro h
      cases outcome with
      | error e => simp [runSubmission, transcribe_audio, pythonTruthy] at h
      | ok t =>
        by_cases ht : t = ""
        · subst ht
          simp [runSubmission, transcribe_audio, pythonTruthy] at h
        · exact ⟨t, rfl, ht⟩
    · rintro ⟨t, rfl, ht⟩
      simp [runSubmission, transcribe_audio, key t ht]
  · intro t hok ht
    subst hok
    have h1 := key t ht
    refine ⟨?_, ?_⟩
    · simp [runSubmission, transcribe_audio, h1]
    · cases ledger with
      | none => simp [runSubmission, transcribe_audio, h1, save_metadata]
      | some rows =>
        simp [runSubmission, transcribe_audio, h1, save_metadata, List.getLast?_concat]

/-- Witness for the amended C3 at a concrete successful non-empty
transcription. -/
theorem row_written_iff_truthy_transcript_witness :
    (((runSubmission "/app" "user/repo" (some []) "uploaded" "f.mp3"
        (Except.ok " hello")).appended = true
      ↔ ∃ t, (Except.ok " hello" : Except String String) = Except.ok t ∧ t ≠ "")
    ∧ (∀ t, (Except.ok " hello" : Except String String) = Except.ok t → t ≠ "" →
        (runSubmission "/app" "user/repo" (some []) "uploaded" "f.mp3"
            (Except.ok " hello")).ledger
          = some (save_metadata (some []) "uploaded" "f.mp3" t)
        ∧ ((runSubmission "/app" "user/repo" (some []) "uploaded" "f.mp3"
            (Except.ok " hello")).ledger.getD []).getLast?
          = some (newRow "uploaded" "f.mp3" t))) :=
  row_written_iff_truthy_transcript "/app" "user/repo" "uploaded" "f.mp3" (some [])
    (Except.ok " hello")

/-- C7: `push_to_huggingface` first ensures the fixed-id remote dataset
repository exists (creating it as a dataset-kind repository when absent,
a no-op on an existing repository), then uploads the local audio
directory tree, then uploads the ledger file to remote path
`metadata.csv`; and the orchestration invokes it exactly once per
submission whose transcription-plus-ledger-append happened — after the
append in the event order — and never when transcription failed. -/
theorem publisher_contract (baseDir repoId audio_type filename : String)
    (ledger : Option (List MetadataRow)) (outcome : Except String String) :
    push_to_huggingface baseDir repoId
      = [Event.createRepo repoId "dataset",
         Event.uploadFolder (baseDir ++ "/audio") repoId "dataset",
         Event.uploadFile (baseDir ++ "/data/metadata.csv") "metadata.csv" repoId "dataset"]
    ∧ create_repo_existOk repoId none = some { repoId := repoId, repoType := "dataset" }
    ∧ (∀ r, create_repo_existOk repoId (some r) = some r)
    ∧ (runSubmission baseDir repoId ledger audio_type filename outcome).publishCalls
        = (if (runSubmission baseDir repoId ledger audio_type filename outcome).appended
           then 1 else 0)
    ∧ (∀ e, outcome = Except.error e →
        (runSubmission baseDir repoId ledger audio_type filename outcome).publishCalls = 0)
    ∧ ((runSubmission baseDir repoId ledger audio_type filename outcome).appended = true →
        (runSubmission baseDir repoId ledger audio_type filename outcome).events
          = Event.ledgerAppend
              (newRow audio_type filename ((transcribe_audio outcome).getD ""))
            :: push_to_huggingface baseDir repoId) := by
  refine ⟨rfl, rfl, fun r => rfl, ?_, ?_, ?_⟩
  · cases outcome with
    | error e => rfl
    | ok t =>
      by_cases ht : t = ""
      · subst ht; rfl
      · simp [runSubmission, transcribe_audio, pythonTruthy, ht]
  · intro e he
    subst he
    rfl
  · intro h
    cases outcome with
    | error e => simp [runSubmission, transcribe_audio, pythonTruthy] at h
    | ok t =>
      by_cases ht : t = ""
      · subst ht
        simp [runSubmission, transcribe_audio, pythonTruthy] at h
      · simp [runSubmission, transcribe_audio, pythonTruthy, ht]

/-- Witness for C7 at a concrete successful submission. -/
theorem publisher_contract_witness :
    push_to_huggingface "/app" "user/repo"
      = [Event.createRepo "user/repo" "dataset",
         Event.uploadFolder ("/app" ++ "/audio") "user/repo" "dataset",
         Event.uploadFile ("/app" ++ "/data/metadata.csv") "metadata.csv" "user/repo"
           "dataset"]
    ∧ create_repo_existOk "user/repo" none
        = some { repoId := "user/repo", repoType := "dataset" }
    ∧ (∀ r, create_repo_existOk "user/repo" (some r) = some r)
    ∧ (runSubmission "/app" "user/repo" (some []) "uploaded" "f.mp3"
        (Except.ok " hello")).publishCalls
        = (if (runSubmission "/app" "user/repo" (some []) "uploaded" "f.mp3"
              (Except.ok " hello")).appended then 1 else 0)
    ∧ (∀ e, (Except.ok " hello" : Except String String) = Except.error e →
        (runSubmission "/app" "user/repo" (some []) "uploaded" "f.mp3"
          (Except.ok " hello")).publishCalls = 0)
    ∧ ((runSubmission "/app" "user/repo" (some []) "uploaded" "f.mp3"
          (Except.ok " hello")).appended = true →
        (runSubmission "/app" "user/repo" (some []) "uploaded" "f.mp3"
            (Except.ok " hello")).events
          = Event.ledgerAppend
              (newRow "uploaded" "f.mp3"
                ((transcribe_audio (Except.ok " hello")).getD ""))
            :: push_to_huggingface "/app" "user/repo") :=
  publisher_contract "/app" "user/repo" "uploaded" "f.mp3" (some []) (Except.ok " hello")
